import Mathlib

/-!
Verification of the skin-tone analysis/modification core
(`src/core/color_analyzer.py`, `src/core/skin_tone_modifier.py`).

Shallow embedding conventions:
* an RGB image is a row-major grid of 8-bit pixels (`Image`), a mask a grid of
  8-bit weights (`Mask`);
* the OpenCV fixed-point 8-bit colour conversions are modelled with exact
  integer arithmetic rounding half-up, as the C++ descale macros do;
* float arithmetic on means/ratios/magnitudes is modelled with exact rationals;
* a Python `raise ValueError(msg)` is an `Except.error msg`; the source's
  `except` blocks that re-wrap become wrapping of the error string.
-/

/-- An 8-bit RGB pixel (each channel intended in 0..255). -/
structure RGB8 where
  r : Nat
  g : Nat
  b : Nat
deriving DecidableEq, Repr

/-- A generic 3-channel 8-bit pixel used for HSV / YCrCb / LAB planes. -/
structure Pix3 where
  x : Nat
  y : Nat
  z : Nat
deriving DecidableEq, Repr

/-- A 3-channel rational colour (float-precision values in the source). -/
structure Q3 where
  r : ℚ
  g : ℚ
  b : ℚ
deriving DecidableEq, Repr

abbrev Image := List (List RGB8)
abbrev Mask := List (List Nat)

/-- Apply a function to every cell of a grid. -/
def mapGrid (f : α → β) (g : List (List α)) : List (List β) :=
  g.map (fun row => row.map f)

/-- Combine two congruent grids cell-wise. -/
def zipWith2D (f : α → β → γ) (a : List (List α)) (b : List (List β)) : List (List γ) :=
  List.zipWith (List.zipWith f) a b

/-- Cell of a grid at row `i`, column `j` (row-major, like `arr[i, j]`). -/
def entry? (g : List (List α)) (i j : Nat) : Option α :=
  (g[i]?).bind fun row => row[j]?

/-- `np.sum` of a 2-D array of unsigned values. -/
def maskSum (m : Mask) : Nat :=
  (m.map (fun row => row.sum)).sum

/-- `np.sum(mask > 0)`: how many cells are strictly positive. -/
def countPos (m : Mask) : Nat :=
  (m.map (fun row => row.countP (fun v => decide (0 < v)))).sum

/-- Rounding division `a/b` half-up for `b > 0` (OpenCV's fixed-point descale). -/
def roundDiv (a b : Int) : Int :=
  Int.fdiv (2 * a + b) (2 * b)

/-- OpenCV `saturate_cast<uchar>` after rounding: clamp an integer to 0..255. -/
def satU8 (x : Int) : Nat :=
  (max 0 (min 255 x)).toNat

/-- `np.clip(v, lo, hi)` on rationals. -/
def qClip (v lo hi : ℚ) : ℚ :=
  min (max v lo) hi

/-- `astype(np.uint8)` on a non-negative float: truncation toward zero. -/
def qTruncU8 (v : ℚ) : Nat :=
  (Int.floor v).toNat

/-- `cv2.cvtColor(_, cv2.COLOR_RGB2HSV)` on one 8-bit pixel:
`V = max`, `S = 255·(V−min)/V` (0 when `V = 0`), hue halved to the 0..180 range. -/
def rgb2hsv_8u (p : RGB8) : Pix3 :=
  let v := max p.r (max p.g p.b)
  let mn := min p.r (min p.g p.b)
  let d := v - mn
  let s := if v = 0 then 0 else (roundDiv (255 * (d : Int)) (v : Int)).toNat
  let hnum : Int :=
    if d = 0 then 0
    else if p.r = v then (let h0 := 60 * ((p.g : Int) - (p.b : Int));
      if h0 < 0 then h0 + 360 * (d : Int) else h0)
    else if p.g = v then 60 * ((p.b : Int) - (p.r : Int)) + 120 * (d : Int)
    else 60 * ((p.r : Int) - (p.g : Int)) + 240 * (d : Int)
  let h := if d = 0 then 0 else (roundDiv hnum (2 * (d : Int))).toNat
  ⟨h, s, v⟩

/-- `cv2.cvtColor(_, cv2.COLOR_RGB2YCrCb)` on one 8-bit pixel
(`Y = 0.299R+0.587G+0.114B`, `Cr = 0.713(R−Y)+128`, `Cb = 0.564(B−Y)+128`). -/
def rgb2ycrcb_8u (p : RGB8) : Pix3 :=
  let yv := roundDiv (299 * (p.r : Int) + 587 * (p.g : Int) + 114 * (p.b : Int)) 1000
  let cr := satU8 (roundDiv (713 * ((p.r : Int) - yv)) 1000 + 128)
  let cb := satU8 (roundDiv (564 * ((p.b : Int) - yv)) 1000 + 128)
  ⟨satU8 yv, cr, cb⟩

/-- `cv2.inRange(img, lower, upper)` on one 3-channel cell: 255 when every
channel lies inside the closed range, else 0. -/
def inRange3 (lo hi q : Pix3) : Nat :=
  if lo.x ≤ q.x ∧ q.x ≤ hi.x ∧ lo.y ≤ q.y ∧ q.y ≤ hi.y ∧ lo.z ≤ q.z ∧ q.z ≤ hi.z
  then 255 else 0

/-- Offsets of the `cv2.getStructuringElement(cv2.MORPH_ELLIPSE, (5, 5))` kernel
(anchor at the centre): full middle rows, only the centre column at top/bottom. -/
def ellipse5 : List (Int × Int) :=
  [(-2, 0),
   (-1, -2), (-1, -1), (-1, 0), (-1, 1), (-1, 2),
   (0, -2), (0, -1), (0, 0), (0, 1), (0, 2),
   (1, -2), (1, -1), (1, 0), (1, 1), (1, 2),
   (2, 0)]

/-- Read a mask cell at possibly out-of-bounds integer coordinates, with a
constant border value (OpenCV's morphology border convention). -/
def maskGet (m : Mask) (dflt : Nat) (i j : Int) : Nat :=
  if i < 0 ∨ j < 0 then dflt
  else ((m[i.toNat]?).bind fun row => row[j.toNat]?).getD dflt

/-- One morphology pass with the 5×5 elliptical structuring element. -/
def morphES (op : Nat → Nat → Nat) (base dflt : Nat) (m : Mask) : Mask :=
  (List.range m.length).map fun i =>
    (List.range (m.headD []).length).map fun j =>
      ellipse5.foldl
        (fun acc od => op acc (maskGet m dflt ((i : Int) + od.1) ((j : Int) + od.2)))
        base

/-- `cv2.erode` with the 5×5 ellipse (border treated as +inf, i.e. 255). -/
def erode5 (m : Mask) : Mask := morphES min 255 255 m

/-- `cv2.dilate` with the 5×5 ellipse (border treated as −inf, i.e. 0). -/
def dilate5 (m : Mask) : Mask := morphES max 0 0 m

/-- `cv2.morphologyEx(_, cv2.MORPH_OPEN, kernel)`: erosion then dilation. -/
def morphOpen5 (m : Mask) : Mask := dilate5 (erode5 m)

/-- `cv2.morphologyEx(_, cv2.MORPH_CLOSE, kernel)`: dilation then erosion. -/
def morphClose5 (m : Mask) : Mask := erode5 (dilate5 m)

/-- OpenCV `BORDER_REFLECT_101` index folding for an axis of length `n`. -/
def reflect101 (n : Nat) (i : Int) : Nat :=
  if n ≤ 1 then 0
  else
    let p : Int := 2 * (n : Int) - 2
    let j := i % p
    (if j < (n : Int) then j else p - j).toNat

/-- `cv2.GaussianBlur` with an odd separable integer kernel `w` (sigma 0 uses
the fixed small-kernel taps), REFLECT_101 borders, rounding half-up. -/
def gaussianBlurW (w : List Nat) (m : Mask) : Mask :=
  let r := (w.length - 1) / 2
  let norm := w.sum * w.sum
  let rows := m.length
  let cols := (m.headD []).length
  (List.range rows).map fun i =>
    (List.range cols).map fun j =>
      let acc := w.enum.foldl (fun a1 diwi =>
        a1 + w.enum.foldl (fun a2 djwj =>
          a2 + diwi.2 * djwj.2 *
            (((m[reflect101 rows ((i : Int) + diwi.1 - r)]?).bind
              (fun row => row[reflect101 cols ((j : Int) + djwj.1 - r)]?)).getD 0)) 0) 0
      (2 * acc + norm) / (2 * norm)

/-- 3-tap Gaussian for `ksize=(3,3), sigma=0`: (0.25, 0.5, 0.25). -/
def gaussianBlur3 (m : Mask) : Mask := gaussianBlurW [1, 2, 1] m

/-- 5-tap Gaussian for `ksize=(5,5), sigma=0`: (1, 4, 6, 4, 1)/16. -/
def gaussianBlur5 (m : Mask) : Mask := gaussianBlurW [1, 4, 6, 4, 1] m

/-- `ColorAnalyzer._detect_skin_regions`: dual HSV/YCrCb threshold masks,
intersected, opened, closed, then blurred with a 3×3 Gaussian. -/
def detect_skin_regions (image : Image) : Mask :=
  let hsv := mapGrid rgb2hsv_8u image
  let ycrcb := mapGrid rgb2ycrcb_8u image
  let mask_hsv := mapGrid (inRange3 ⟨0, 20, 70⟩ ⟨20, 255, 255⟩) hsv
  let mask_ycrcb := mapGrid (inRange3 ⟨0, 135, 85⟩ ⟨255, 180, 135⟩) ycrcb
  let skin_mask := zipWith2D Nat.land mask_hsv mask_ycrcb
  gaussianBlur3 (morphClose5 (morphOpen5 skin_mask))

/-- `SkinToneModifier._detect_skin_mask`: identical thresholds and morphology,
but a 5×5 Gaussian at the end. -/
def detect_skin_mask (image : Image) : Mask :=
  let hsv := mapGrid rgb2hsv_8u image
  let ycrcb := mapGrid rgb2ycrcb_8u image
  let mask_hsv := mapGrid (inRange3 ⟨0, 20, 70⟩ ⟨20, 255, 255⟩) hsv
  let mask_ycrcb := mapGrid (inRange3 ⟨0, 135, 85⟩ ⟨255, 180, 135⟩) ycrcb
  let skin_mask := zipWith2D Nat.land mask_hsv mask_ycrcb
  gaussianBlur5 (morphClose5 (morphOpen5 skin_mask))

/-- Fuel-bounded binary search for the integer `k`-th root. -/
def irootGo (k n : Nat) : Nat → Nat → Nat → Nat
  | 0, lo, _ => lo
  | fuel + 1, lo, hi =>
    if hi ≤ lo + 1 then lo
    else
      let mid := (lo + hi) / 2
      if mid ^ k ≤ n then irootGo k n fuel mid hi else irootGo k n fuel lo mid

/-- Floor of the `k`-th root of a natural number (`k ≥ 1`); 256 bisection
steps settle any `n < 2^255`, far beyond the fixed-point ranges used here. -/
def natIRoot (k n : Nat) : Nat :=
  irootGo k n 256 0 (n + 1)

/-- `floor(cbrt(num/den) · 10^6)` — the cube root used by the LAB transform,
computed to fixed precision like OpenCV's fixed-point table does. -/
def cbrtScaled (num den : Nat) : Nat :=
  natIRoot 3 (num * 1000000 ^ 3 / den)

/-- The CIE `f(t)` function scaled by `10^6`, for `t = num/den`:
cube root above the 0.008856 threshold, `7.787·t + 16/116` below. -/
def fLabScaled (num den : Nat) : Nat :=
  if 1000000 * num > 8856 * den then cbrtScaled num den
  else 7787 * num * 1000 / den + 137931

/-- `cv2.cvtColor(_, cv2.COLOR_RGB2LAB)` on one 8-bit pixel: D65 XYZ matrix
(no gamma, per the OpenCV documentation), CIE `f`, then the 8-bit packing
`L ← L·255/100`, `a ← a + 128`, `b ← b + 128`. -/
def rgb2lab_8u (p : RGB8) : Pix3 :=
  let xc := 412453 * p.r + 357580 * p.g + 180423 * p.b
  let yc := 212671 * p.r + 715160 * p.g + 72169 * p.b
  let zc := 19334 * p.r + 119193 * p.g + 950227 * p.b
  let dx := 255 * 950456
  let dy := 255 * 1000000
  let dz := 255 * 1088754
  let fx := fLabScaled xc dx
  let fy := fLabScaled yc dy
  let fz := fLabScaled zc dz
  let l8 : Int :=
    if 1000000 * yc > 8856 * dy then
      roundDiv (255 * (116 * (fy : Int) - 16 * 1000000)) (100 * 1000000)
    else
      roundDiv (9033 * (yc : Int) * 255) (10 * (dy : Int) * 100)
  ⟨satU8 l8,
   satU8 (roundDiv (500 * ((fx : Int) - (fy : Int))) 1000000 + 128),
   satU8 (roundDiv (200 * ((fy : Int) - (fz : Int))) 1000000 + 128)⟩

/-- Inverse of the CIE `f`, scaled by `10^6`: `t = f³` above the threshold,
`(f − 16/116)/7.787` below. -/
def finvScaled (f : Int) : Int :=
  if f ^ 3 > 8856 * 1000000 ^ 2 then Int.fdiv (f ^ 3) (1000000 ^ 2)
  else Int.fdiv ((f - 137931) * 1000) 7787

/-- `cv2.cvtColor(_, cv2.COLOR_LAB2RGB)` on one 8-bit LAB pixel: unpack the
8-bit encoding, invert `f`, apply the inverse D65 matrix, saturate to 0..255. -/
def lab2rgb_8u (q : Pix3) : RGB8 :=
  let fy : Int := Int.fdiv (((q.x * 100 + 4080 : Nat) : Int) * 1000000) 29580
  let fx : Int := fy + ((q.y : Int) - 128) * 2000
  let fz : Int := fy - ((q.z : Int) - 128) * 5000
  let tx := finvScaled fx
  let ty := finvScaled fy
  let tz := finvScaled fz
  let xs := Int.fdiv (950456 * tx) 1000000
  let ys := ty
  let zs := Int.fdiv (1088754 * tz) 1000000
  let rl := Int.fdiv (3240479 * xs - 1537150 * ys - 498535 * zs) 1000000
  let gl := Int.fdiv ((-969256) * xs + 1875991 * ys + 41556 * zs) 1000000
  let bl := Int.fdiv (55648 * xs - 204043 * ys + 1057311 * zs) 1000000
  ⟨satU8 (roundDiv (255 * rl) 1000000),
   satU8 (roundDiv (255 * gl) 1000000),
   satU8 (roundDiv (255 * bl) 1000000)⟩

/-- `cv2.cvtColor(_, cv2.COLOR_HSV2RGB)` on one 8-bit HSV pixel (H on the
0..180 scale): standard sector formula, rounded back to 8 bits. -/
def hsv2rgb_8u (q : Pix3) : RGB8 :=
  let hdeg := 2 * q.x
  let sector := (hdeg / 60) % 6
  let fn := hdeg % 60
  let v := q.z
  let s := min q.y 255
  let pp := (roundDiv ((v * (255 - s) * 60 : Nat) : Int) (255 * 60)).toNat
  let qq := (roundDiv ((v * (255 * 60 - s * fn) : Nat) : Int) (255 * 60)).toNat
  let tt := (roundDiv ((v * (255 * 60 - s * (60 - fn)) : Nat) : Int) (255 * 60)).toNat
  match sector with
  | 0 => ⟨v, tt, pp⟩
  | 1 => ⟨qq, v, pp⟩
  | 2 => ⟨pp, v, tt⟩
  | 3 => ⟨pp, qq, v⟩
  | 4 => ⟨tt, pp, v⟩
  | _ => ⟨v, pp, qq⟩

/-- Floor-precision rational `k`-th root: `floor(root · prec)/prec`. -/
def qRootFloor (k prec : Nat) (x : ℚ) : ℚ :=
  ((natIRoot k (Int.toNat (Int.floor (x * (prec : ℚ) ^ k))) : ℚ)) / (prec : ℚ)

/-- sRGB inverse companding used by skimage (`x^2.4 = (x^12)^(1/5)`). -/
def srgbLinearize (c : ℚ) : ℚ :=
  if c ≤ 4045 / 100000 then c * 100 / 1292
  else qRootFloor 5 1000000 (((c + 55 / 1000) / (1055 / 1000)) ^ 12)

/-- skimage `color.rgb2lab` restricted to the `L*` channel, for channels in
0..1: sRGB linearisation, D65 luminance, CIE lightness. (The source reads only
`lab[0, 0, 0]`, so only `L*` is modelled.) -/
def rgb2lab_L (c : Q3) : ℚ :=
  let rl := srgbLinearize c.r
  let gl := srgbLinearize c.g
  let bl := srgbLinearize c.b
  let yv := (212671 * rl + 715160 * gl + 72169 * bl) / 1000000
  if yv > 8856 / 1000000 then 116 * qRootFloor 3 1000000 yv - 16 else 9033 / 10 * yv

/-- `ColorAnalyzer._calculate_lightness`: L* of the normalised colour, clamped
to [0, 100] by `max(0, min(100, lightness))`. -/
def calculate_lightness (rgb_color : Q3) : ℚ :=
  let lightness := rgb2lab_L ⟨rgb_color.r / 255, rgb_color.g / 255, rgb_color.b / 255⟩
  max 0 (min 100 lightness)

/-- Fractional part (used for hue wrap-around). -/
def fracPart (x : ℚ) : ℚ := x - Int.floor x

/-- skimage `color.rgb2hsv` on a float colour with channels in 0..1:
hue in [0, 1), saturation and value in [0, 1]. -/
def rgb2hsv_f (c : Q3) : Q3 :=
  let v := max c.r (max c.g c.b)
  let mn := min c.r (min c.g c.b)
  let d := v - mn
  let s := if v = 0 then 0 else d / v
  let h6 : ℚ :=
    if d = 0 then 0
    else if v = c.r then (c.g - c.b) / d
    else if v = c.g then 2 + (c.b - c.r) / d
    else 4 + (c.r - c.g) / d
  ⟨fracPart (h6 / 6), s, v⟩

/-- A k-means centre kept as an exact column sum plus population, so the mean
`(sr/cnt, sg/cnt, sb/cnt)` needs no floating point. -/
structure KCenter where
  sr : Int
  sg : Int
  sb : Int
  cnt : Nat
deriving DecidableEq, Repr

/-- A pixel as a (trivial) centre. -/
def pixCenter (p : RGB8) : KCenter := ⟨p.r, p.g, p.b, 1⟩

/-- Numerator of the squared distance from `p` to the mean of `c`
(the true squared distance is this over `c.cnt ^ 2`). -/
def distNum (p : RGB8) (c : KCenter) : Nat :=
  (((p.r : Int) * c.cnt - c.sr) ^ 2 + ((p.g : Int) * c.cnt - c.sg) ^ 2 +
    ((p.b : Int) * c.cnt - c.sb) ^ 2).toNat

/-- Exact comparison `dist(p,c1) < dist(p,c2)` by cross-multiplication. -/
def distLt (p : RGB8) (c1 c2 : KCenter) : Bool :=
  distNum p c1 * c2.cnt ^ 2 < distNum p c2 * c1.cnt ^ 2

/-- Index of the nearest centre (lowest index wins ties, like `np.argmin`). -/
def nearestIdx (cs : List KCenter) (p : RGB8) : Nat :=
  (cs.enum.foldl
    (fun best ic =>
      match best with
      | none => some ic
      | some b => if distLt p ic.2 b.2 then some ic else some b)
    none).elim 0 (fun b => b.1)

/-- Assignment step: label every pixel with its nearest centre. -/
def assignLabels (cs : List KCenter) (px : List RGB8) : List Nat :=
  px.map (nearestIdx cs)

/-- The pixels assigned to cluster `i`. -/
def clusterOf (px : List RGB8) (labels : List Nat) (i : Nat) : List RGB8 :=
  ((px.zip labels).filter (fun pl => decide (pl.2 = i))).map (fun pl => pl.1)

/-- Update step: each centre becomes the exact mean of its cluster; an empty
cluster keeps its previous centre. -/
def updateCenters (k : Nat) (cs : List KCenter) (px : List RGB8) (labels : List Nat) :
    List KCenter :=
  (List.range k).map fun i =>
    let pts := clusterOf px labels i
    if pts.isEmpty then cs.getD i ⟨0, 0, 0, 1⟩
    else
      ⟨(pts.map (fun p => (p.r : Int))).sum,
       (pts.map (fun p => (p.g : Int))).sum,
       (pts.map (fun p => (p.b : Int))).sum,
       pts.length⟩

/-- Exact squared distance between two pixels. -/
def sqDistP (p q : RGB8) : Nat :=
  (((p.r : Int) - (q.r : Int)) ^ 2 + ((p.g : Int) - (q.g : Int)) ^ 2 +
    ((p.b : Int) - (q.b : Int)) ^ 2).toNat

/-- Squared distance from `p` to its nearest already-chosen seed. -/
def minDistP (chosen : List RGB8) (p : RGB8) : Nat :=
  (chosen.map (sqDistP p)).foldl min 1000000000000

/-- The pixel farthest from the chosen seeds (first such pixel on ties). -/
def farthestPix (px : List RGB8) (chosen : List RGB8) : RGB8 :=
  (px.foldl
    (fun best p =>
      match best with
      | none => some (p, minDistP chosen p)
      | some b => if minDistP chosen p > b.2 then some (p, minDistP chosen p) else some b)
    none).elim ⟨0, 0, 0⟩ (fun b => b.1)

/-- Modelled from the spec: the source calls sklearn's
`KMeans(n_clusters=n_colors, random_state=42, n_init=10).fit`, whose code is an
external library and not part of this repository. The spec (§4.2) pins it down
as Lloyd's algorithm in RGB space with a fixed seed and deterministic tie
breaking; this deterministic surrogate seeds with the first pixel followed by
farthest-point choices (the forced outcome of seeded k-means++ whenever the
distinct colours are no more numerous than `k`). -/
def kmeansInit (px : List RGB8) (k : Nat) : List KCenter :=
  match px with
  | [] => []
  | p0 :: _ =>
    ((List.range (k - 1)).foldl (fun chosen _ => chosen ++ [farthestPix px chosen]) [p0]).map
      pixCenter

/-- Lloyd iterations with fuel (sklearn's `max_iter = 300`): assign, update,
stop at a fixed point. -/
def lloydLoop : Nat → List KCenter → List RGB8 → Nat → (List KCenter × List Nat)
  | 0, cs, px, _ => (cs, assignLabels cs px)
  | fuel + 1, cs, px, k =>
    let labels := assignLabels cs px
    let cs' := updateCenters k cs px labels
    if cs' = cs then (cs, labels) else lloydLoop fuel cs' px k

/-- Modelled from the spec: `KMeans(...).fit` raises (sklearn's validated
preconditions) when `n_clusters < 1` or when there are fewer samples than
clusters; otherwise Lloyd's algorithm runs and always returns centres and
labels — duplicate samples only produce empty clusters, never an error. -/
def kmeansFit (px : List RGB8) (k : Nat) : Except String (List KCenter × List Nat) :=
  if k = 0 then .error "n_clusters should be >= 1"
  else if px.length < k then .error "n_samples should be >= n_clusters"
  else .ok (lloydLoop 300 (kmeansInit px k) px k)

/-- `np.bincount(labels)`: occurrence counts for 0 .. max label. -/
def bincount (labels : List Nat) : List Nat :=
  if labels.isEmpty then []
  else (List.range (labels.foldl max 0 + 1)).map (fun i => labels.count i)

/-- `np.argsort(label_counts)` (ascending; tie order is unspecified in numpy,
insertion sort here). -/
def argsortAsc (counts : List Nat) : List Nat :=
  List.insertionSort (fun i j => counts.getD i 0 ≤ counts.getD j 0)
    (List.range counts.length)

/-- `.astype(np.uint8)` of a centre's mean: truncation toward zero, wrapping
modulo 256 like a C cast (means of valid pixels never actually wrap). -/
def centerToU8 (c : KCenter) : RGB8 :=
  ⟨(Int.fdiv c.sr (c.cnt : Int)).toNat % 256,
   (Int.fdiv c.sg (c.cnt : Int)).toNat % 256,
   (Int.fdiv c.sb (c.cnt : Int)).toNat % 256⟩

/-- Message template of `ColorAnalyzer._get_dominant_colors`'s `except` block. -/
def clustering_failed_msg (c : String) : String :=
  "Dominant color extraction failed: " ++ c

/-- `ColorAnalyzer._get_dominant_colors`: k-means on the pixel list, then the
centroids ordered by descending cluster population (`np.argsort(label_counts)`
reversed), cast to `uint8`. Library failures are wrapped. -/
def get_dominant_colors (pixels : List RGB8) (n_colors : Nat := 5) :
    Except String (List RGB8) :=
  match kmeansFit pixels n_colors with
  | .error e => .error (clustering_failed_msg e)
  | .ok (centers, labels) =>
    let label_counts := bincount labels
    let sorted_indices := (argsortAsc label_counts).reverse
    .ok (sorted_indices.map fun i => centerToU8 (centers.getD i ⟨0, 0, 0, 1⟩))

/-- One lightness bucket of `self.skin_tone_categories`. -/
structure Category where
  lo : ℚ
  hi : ℚ
  name : String
deriving DecidableEq, Repr

/-- `ColorAnalyzer.skin_tone_categories` in insertion order. -/
def skin_tone_categories : List Category :=
  [⟨0, 25, "Very Light"⟩, ⟨25, 40, "Light"⟩, ⟨40, 55, "Light Medium"⟩,
   ⟨55, 70, "Medium"⟩, ⟨70, 85, "Medium Dark"⟩, ⟨85, 100, "Dark"⟩]

/-- `ColorAnalyzer._classify_skin_tone_category`: first bucket with
`min <= lightness < max`, else the out-of-range fallback. -/
def classify_skin_tone_category (lightness : ℚ) : String :=
  match skin_tone_categories.find? (fun c => decide (c.lo ≤ lightness ∧ lightness < c.hi)) with
  | some c => c.name
  | none =>
    if lightness < 25 then "Very Light"
    else if 85 ≤ lightness then "Dark"
    else "Medium"

/-- `ColorAnalyzer._determine_undertone`: sign test on
(normalised red − normalised blue) with the ±0.05 dead zone.
(`skin_pixels` is accepted but unused, exactly as in the source.) -/
def determine_undertone (avg_color : Q3) (skin_pixels : List RGB8) : String :=
  let red_norm := avg_color.r / 255
  let blue_norm := avg_color.b / 255
  let red_blue_diff := red_norm - blue_norm
  if red_blue_diff > 5 / 100 then "Warm"
  else if red_blue_diff < -(5 / 100) then "Cool"
  else "Neutral"

/-- `ColorAnalyzer._calculate_color_temperature`: coarser red-vs-blue
comparison with a 0.1 threshold. -/
def calculate_color_temperature (rgb_color : Q3) : String :=
  let r := rgb_color.r / 255
  let b := rgb_color.b / 255
  if r > b then (if r - b > 1 / 10 then "Warm" else "Neutral-Warm")
  else if b > r then (if b - r > 1 / 10 then "Cool" else "Neutral-Cool")
  else "Neutral"

/-- A value of the Python harmony dict: a scalar or a list of hues. -/
inductive HVal where
  | num (q : ℚ)
  | arr (l : List ℚ)
deriving DecidableEq, Repr

/-- `x % 360` on rationals (Python's non-negative float modulo). -/
def qMod360 (x : ℚ) : ℚ := x - 360 * (Int.floor (x / 360) : ℤ)

/-- The fixed fallback dict of `_get_color_harmony_info`'s `except` branch
(line 249 of `color_analyzer.py`): no saturation or value entries. -/
def default_harmony : List (String × HVal) :=
  [("base_hue", .num 0), ("complementary", .num 180),
   ("triadic", .arr [120, 240]), ("analogous", .arr [30, 330])]

/-- The `try`/`except` body of `ColorAnalyzer._get_color_harmony_info`,
explicit in the outcome of the internal HSV conversion: a failed conversion
selects the fixed default record, a successful one the full record. -/
def get_color_harmony_info_core (hsvRes : Except String Q3) : List (String × HVal) :=
  match hsvRes with
  | .error _ => default_harmony
  | .ok hsv =>
    let hue_degrees := hsv.r * 360
    let complementary_hue := qMod360 (hue_degrees + 180)
    let triadic_hue1 := qMod360 (hue_degrees + 120)
    let triadic_hue2 := qMod360 (hue_degrees + 240)
    let analogous_hue1 := qMod360 (hue_degrees + 30)
    let analogous_hue2 := qMod360 (hue_degrees - 30)
    [("base_hue", .num hue_degrees), ("complementary", .num complementary_hue),
     ("triadic", .arr [triadic_hue1, triadic_hue2]),
     ("analogous", .arr [analogous_hue1, analogous_hue2]),
     ("saturation", .num hsv.g), ("value", .num hsv.b)]

/-- `ColorAnalyzer._get_color_harmony_info`: convert the mean colour to HSV
and build the harmony record (the conversion itself is total on well-typed
colours, so the success branch is the one reached). -/
def get_color_harmony_info (rgb_color : Q3) : List (String × HVal) :=
  get_color_harmony_info_core
    (.ok (rgb2hsv_f ⟨rgb_color.r / 255, rgb_color.g / 255, rgb_color.b / 255⟩))

/-- `image.shape[0] * image.shape[1]`. -/
def totalPixels (image : Image) : Nat :=
  image.length * (image.headD []).length

/-- The skin-pixel fraction `np.sum(skin_mask > 0) / total_pixels`. -/
def skinFraction (skin_mask : Mask) (image : Image) : ℚ :=
  (countPos skin_mask : ℚ) / (totalPixels image : ℚ)

/-- `ColorAnalyzer._calculate_confidence`: bucket the skin fraction. On an
empty image numpy's `0/0` is NaN, every NaN comparison is false, and the final
branch (0.8) is selected — modelled by the explicit zero test. -/
def calculate_confidence (skin_mask : Mask) (image : Image) : ℚ :=
  if totalPixels image = 0 then min 1 (max 0 (4 / 5))
  else
    let confidence :=
      if skinFraction skin_mask image < 5 / 100 then 3 / 10
      else if skinFraction skin_mask image < 15 / 100 then 3 / 5
      else if skinFraction skin_mask image < 4 / 10 then 9 / 10
      else 4 / 5
    min 1 (max 0 confidence)

/-- `image[skin_mask > 0]`: row-major extraction of pixels under the mask. -/
def extract_skin_pixels (image : Image) (skin_mask : Mask) : List RGB8 :=
  (zipWith2D (fun mv p => (mv, p)) skin_mask image).flatten.filterMap
    (fun mp => if 0 < mp.1 then some mp.2 else none)

/-- `np.mean(skin_pixels, axis=0)`: exact channel means. -/
def meanColor (pixels : List RGB8) : Q3 :=
  ⟨((pixels.map (fun p => (p.r : ℚ))).sum) / (pixels.length : ℚ),
   ((pixels.map (fun p => (p.g : ℚ))).sum) / (pixels.length : ℚ),
   ((pixels.map (fun p => (p.b : ℚ))).sum) / (pixels.length : ℚ)⟩

/-- The analysis record of `ColorAnalyzer.analyze_skin_tone`. -/
structure AnalysisResult where
  category : String
  undertone : String
  lightness : ℚ
  temperature : String
  dominant_colors : List RGB8
  average_color : Q3
  harmony_info : List (String × HVal)
  skin_pixel_count : Nat
  confidence : ℚ
deriving DecidableEq, Repr

/-- Message of the `raise ValueError` on line 38 of `color_analyzer.py`. -/
def no_skin_msg : String := "No skin regions detected in the image"

/-- Message template of `_detect_skin_regions`'s own `except` block. -/
def skin_detection_failed_msg (c : String) : String :=
  "Skin detection failed: " ++ c

/-- Message template of `analyze_skin_tone`'s outer `except` block. -/
def analysis_failed_msg (c : String) : String :=
  "Skin tone analysis failed: " ++ c

/-- `ColorAnalyzer.analyze_skin_tone`: detect the mask, fail on a zero mask,
otherwise assemble the full record; every error raised inside the `try` body
(including the no-skin `ValueError` itself) is re-raised wrapped by the outer
`except` as "Skin tone analysis failed: ...". -/
def analyze_skin_tone (image : Image) : Except String AnalysisResult :=
  let inner : Except String AnalysisResult :=
    let skin_mask := detect_skin_regions image
    if maskSum skin_mask = 0 then .error no_skin_msg
    else
      let skin_pixels := extract_skin_pixels image skin_mask
      match get_dominant_colors skin_pixels 5 with
      | .error e => .error e
      | .ok dominant_colors =>
        let avg_skin_color := meanColor skin_pixels
        let lightness := calculate_lightness avg_skin_color
        let category := classify_skin_tone_category lightness
        let undertone := determine_undertone avg_skin_color skin_pixels
        let temperature := calculate_color_temperature avg_skin_color
        let harmony_info := get_color_harmony_info avg_skin_color
        .ok
          { category := category
            undertone := undertone
            lightness := lightness
            temperature := temperature
            dominant_colors := dominant_colors
            average_color := avg_skin_color
            harmony_info := harmony_info
            skin_pixel_count := skin_pixels.length
            confidence := calculate_confidence skin_mask image }
  match inner with
  | .error e => .error (analysis_failed_msg e)
  | .ok r => .ok r

/-- `SkinToneModifier.adjust_lightness`: copy, detect mask, no-op on a zero
mask; otherwise convert to 8-bit LAB, scale the L channel by
`1 + adjustment/100` clipped to [0, 100] at mask-positive cells, cast the LAB
plane back to `uint8`, and convert back to RGB. -/
def adjust_lightness (image : Image) (adjustment : ℚ) : Image :=
  let result := image
  let skin_mask := detect_skin_mask image
  if maskSum skin_mask = 0 then result
  else
    let lab := mapGrid rgb2lab_8u result
    let adjustment_factor : ℚ := 1 + adjustment / 100
    let lab' := zipWith2D
      (fun mv (q : Pix3) =>
        (⟨if 0 < mv then qTruncU8 (qClip ((q.x : ℚ) * adjustment_factor) 0 100) else q.x,
          q.y, q.z⟩ : Pix3))
      skin_mask lab
    mapGrid lab2rgb_8u lab'

/-- `SkinToneModifier.adjust_warmth`: float copy, detect mask, no-op on a zero
mask; otherwise scale red/blue with the asymmetric factors chosen by the sign
of the magnitude, only at mask-positive cells, clip to [0, 255], cast back. -/
def adjust_warmth (image : Image) (adjustment : ℚ) : Image :=
  let skin_mask := detect_skin_mask image
  if maskSum skin_mask = 0 then image
  else
    let warmth_factor := adjustment / 100
    let red_adjustment := if 0 < warmth_factor then 1 + warmth_factor * (3 / 10)
      else 1 + warmth_factor * (2 / 10)
    let blue_adjustment := if 0 < warmth_factor then 1 - warmth_factor * (2 / 10)
      else 1 - warmth_factor * (3 / 10)
    zipWith2D
      (fun mv (p : RGB8) =>
        (⟨if 0 < mv then qTruncU8 (qClip ((p.r : ℚ) * red_adjustment) 0 255) else p.r,
          p.g,
          if 0 < mv then qTruncU8 (qClip ((p.b : ℚ) * blue_adjustment) 0 255) else p.b⟩ : RGB8))
      skin_mask image

/-- `SkinToneModifier.adjust_saturation`: copy, detect mask, no-op on a zero
mask; otherwise convert to 8-bit HSV, scale the S channel by
`1 + adjustment/100` clipped to [0, 255] at mask-positive cells, cast the HSV
plane back to `uint8`, and convert back to RGB. -/
def adjust_saturation (image : Image) (adjustment : ℚ) : Image :=
  let result := image
  let skin_mask := detect_skin_mask image
  if maskSum skin_mask = 0 then result
  else
    let hsv := mapGrid rgb2hsv_8u result
    let saturation_factor : ℚ := 1 + adjustment / 100
    let hsv' := zipWith2D
      (fun mv (q : Pix3) =>
        (⟨q.x,
          if 0 < mv then qTruncU8 (qClip ((q.y : ℚ) * saturation_factor) 0 255) else q.y,
          q.z⟩ : Pix3))
      skin_mask hsv
    mapGrid hsv2rgb_8u hsv'

/-! ### Helper lemmas -/

theorem getElem?_zipWith (f : α → β → γ) :
    ∀ (a : List α) (b : List β) (i : Nat),
      (List.zipWith f a b)[i]? = (a[i]?).bind fun x => (b[i]?).map fun y => f x y := by
  intro a
  induction a with
  | nil => intro b i; cases b <;> cases i <;> simp
  | cons x xs ih =>
    intro b i
    cases b with
    | nil => cases i <;> simp
    | cons y ys =>
      cases i with
      | zero => simp
      | succ n => simpa using ih ys n

theorem entry?_zipWith2D (f : α → β → γ) (a : List (List α)) (b : List (List β)) (i j : Nat) :
    entry? (zipWith2D f a b) i j =
      (entry? a i j).bind fun x => (entry? b i j).map fun y => f x y := by
  simp only [entry?, zipWith2D, getElem?_zipWith]
  cases a[i]? with
  | none => simp
  | some ra =>
    cases b[i]? with
    | none => simp
    | some rb => simp [getElem?_zipWith]

theorem maskSum_zero_entry {m : Mask} (h : maskSum m = 0) {i j v : Nat}
    (hv : entry? m i j = some v) : v = 0 := by
  simp only [entry?] at hv
  cases hr : m[i]? with
  | none => rw [hr] at hv; simp at hv
  | some row =>
    rw [hr] at hv
    simp only [Option.some_bind] at hv
    have hrow : row ∈ m := List.mem_iff_getElem?.mpr ⟨i, hr⟩
    have hvr : v ∈ row := List.mem_iff_getElem?.mpr ⟨j, hv⟩
    have hsum : row.sum = 0 := by
      rw [maskSum, List.sum_eq_zero_iff] at h
      exact h row.sum (List.mem_map_of_mem _ hrow)
    rw [List.sum_eq_zero_iff] at hsum
    exact hsum v hvr

theorem maskSum_zero_of_entries {m : Mask}
    (h : ∀ i j v, entry? m i j = some v → v = 0) : maskSum m = 0 := by
  rw [maskSum, List.sum_eq_zero_iff]
  intro s hs
  rcases List.mem_map.mp hs with ⟨row, hrow, rfl⟩
  rw [List.sum_eq_zero_iff]
  intro v hv
  rcases List.mem_iff_getElem?.mp hrow with ⟨i, hi⟩
  rcases List.mem_iff_getElem?.mp hv with ⟨j, hj⟩
  exact h i j v (by simp [entry?, hi, hj])

/-- Decidable form of "every mask cell is zero". -/
def maskAllZero (m : Mask) : Bool :=
  m.all fun row => row.all fun v => v = 0

theorem maskAllZero_entries {m : Mask} (h : maskAllZero m = true) :
    ∀ i j v, entry? m i j = some v → v = 0 := by
  intro i j v hv
  simp only [entry?] at hv
  cases hr : m[i]? with
  | none => rw [hr] at hv; simp at hv
  | some row =>
    rw [hr] at hv
    simp only [Option.some_bind] at hv
    have hrow : row ∈ m := List.mem_iff_getElem?.mpr ⟨i, hr⟩
    have hvr : v ∈ row := List.mem_iff_getElem?.mpr ⟨j, hv⟩
    simp only [maskAllZero, List.all_eq_true] at h
    have := h row hrow
    simp only [List.all_eq_true] at this
    exact of_decide_eq_true (this v hvr)

theorem string_ne_of_head_ne {a b : String} (h : a.data.head? ≠ b.data.head?) : a ≠ b :=
  fun e => h (congrArg (fun s => s.data.head?) e)

theorem analysis_failed_msg_inj {a b : String}
    (h : analysis_failed_msg a = analysis_failed_msg b) : a = b := by
  simp only [analysis_failed_msg] at h
  have h2 := congrArg String.data h
  rw [show (("Skin tone analysis failed: " : String) ++ a).data =
        ("Skin tone analysis failed: " : String).data ++ a.data from rfl,
      show (("Skin tone analysis failed: " : String) ++ b).data =
        ("Skin tone analysis failed: " : String).data ++ b.data from rfl] at h2
  exact String.ext (List.append_cancel_left h2)

theorem no_skin_msg_ne_detect (c : String) :
    no_skin_msg ≠ skin_detection_failed_msg c := by
  apply string_ne_of_head_ne
  rw [show no_skin_msg.data.head? = some 'N' from rfl,
      show (skin_detection_failed_msg c).data =
        ("Skin detection failed: " : String).data ++ c.data from rfl,
      List.head?_append,
      show (("Skin detection failed: " : String).data).head? = some 'S' from rfl]
  simp [Option.or]

theorem no_skin_msg_ne_cluster (c : String) :
    no_skin_msg ≠ clustering_failed_msg c := by
  apply string_ne_of_head_ne
  rw [show no_skin_msg.data.head? = some 'N' from rfl,
      show (clustering_failed_msg c).data =
        ("Dominant color extraction failed: " : String).data ++ c.data from rfl,
      List.head?_append,
      show (("Dominant color extraction failed: " : String).data).head? = some 'D' from rfl]
  simp [Option.or]

/-! ### Concrete inputs used by witnesses and counterexamples -/

/-- A 2×2 all-black image: black fails the HSV saturation threshold, so both
detectors produce an all-zero mask. -/
def blackImg2 : Image := [[⟨0, 0, 0⟩, ⟨0, 0, 0⟩], [⟨0, 0, 0⟩, ⟨0, 0, 0⟩]]

/-- A skin-coloured pixel: HSV (6, 128, 200) and YCrCb (142, 169, 104) both
fall inside the detection ranges. -/
def pixA : RGB8 := ⟨200, 120, 100⟩

/-- A second, clearly distinct colour. -/
def pixB : RGB8 := ⟨50, 60, 70⟩

/-- A 2×2 image entirely of `pixA`: both detectors give an all-255 mask. -/
def skinImg2 : Image := [[pixA, pixA], [pixA, pixA]]

/-- Two distinct colours in a 9 : 1 ratio. -/
def twoTone91 : List RGB8 := List.replicate 9 pixA ++ [pixB]

/-- Five copies of a single colour: 5 samples but only 1 distinct pixel. -/
def fiveSame : List RGB8 := List.replicate 5 pixA

/-- A 1×20 image (any content; only its shape feeds the confidence). -/
def demoImg20 : Image := [List.replicate 20 (⟨0, 0, 0⟩ : RGB8)]

/-- A 1×20 mask with exactly one positive cell: skin fraction exactly 5%. -/
def demoMask20 : Mask := [255 :: List.replicate 19 0]

/-! ### Claims -/

/-- C1: whenever the computed skin mask sums to zero, `analyze_skin_tone`
fails with the no-skin error (the line-38 `ValueError`, re-wrapped by the
outer handler); that error is distinct, as a value, from every wrapped
skin-detection (conversion) failure and every wrapped clustering failure, so
callers can tell the precondition failure apart; and no analysis record is
returned. -/
theorem spec_C1_no_skin_failure (image : Image)
    (h : maskSum (detect_skin_regions image) = 0) :
    analyze_skin_tone image = .error (analysis_failed_msg no_skin_msg) ∧
    (∀ c, analysis_failed_msg no_skin_msg ≠ analysis_failed_msg (skin_detection_failed_msg c)) ∧
    (∀ c, analysis_failed_msg no_skin_msg ≠ analysis_failed_msg (clustering_failed_msg c)) ∧
    (∀ r, analyze_skin_tone image ≠ .ok r) := by
  have h1 : analyze_skin_tone image = .error (analysis_failed_msg no_skin_msg) := by
    simp [analyze_skin_tone, h]
  refine ⟨h1, ?_, ?_, ?_⟩
  · intro c hc
    exact no_skin_msg_ne_detect c (analysis_failed_msg_inj hc)
  · intro c hc
    exact no_skin_msg_ne_cluster c (analysis_failed_msg_inj hc)
  · intro r hr
    rw [h1] at hr
    exact Except.noConfusion hr

set_option maxRecDepth 100000 in
/-- Witness for C1 at the all-black 2×2 image. -/
theorem spec_C1_no_skin_failure_witness :
    maskSum (detect_skin_regions blackImg2) = 0 ∧
    analyze_skin_tone blackImg2 = .error (analysis_failed_msg no_skin_msg) :=
  ⟨by decide, (spec_C1_no_skin_failure blackImg2 (by decide)).1⟩

/-- C2: on an image whose detected skin mask is entirely zero, each of the
three adjustments (lightness, warmth, saturation), at any magnitude in
[−50, 50], returns an image equal to the input; being total functions of the
embedding, they raise nothing. -/
theorem spec_C2_noop_on_zero_mask (image : Image) (adjustment : ℚ)
    (h1 : -50 ≤ adjustment) (h2 : adjustment ≤ 50)
    (hz : ∀ i j v, entry? (detect_skin_mask image) i j = some v → v = 0) :
    adjust_lightness image adjustment = image ∧
    adjust_warmth image adjustment = image ∧
    adjust_saturation image adjustment = image := by
  have hs : maskSum (detect_skin_mask image) = 0 := maskSum_zero_of_entries hz
  refine ⟨?_, ?_, ?_⟩ <;>
    simp [adjust_lightness, adjust_warmth, adjust_saturation, hs]

set_option maxRecDepth 100000 in
/-- Witness for C2 at the all-black 2×2 image with magnitude 7. -/
theorem spec_C2_noop_on_zero_mask_witness :
    ((-50 : ℚ) ≤ 7 ∧ (7 : ℚ) ≤ 50) ∧
    (adjust_lightness blackImg2 7 = blackImg2 ∧
     adjust_warmth blackImg2 7 = blackImg2 ∧
     adjust_saturation blackImg2 7 = blackImg2) :=
  ⟨⟨by norm_num, by norm_num⟩,
   spec_C2_noop_on_zero_mask blackImg2 7 (by norm_num) (by norm_num)
     (maskAllZero_entries (by decide))⟩

/-- C3: for 0 ≤ L < 100 exactly one of the six half-open buckets contains L
and the classifier returns that bucket's name; L = 25 falls in "Light", not
"Very Light"; negative values fall back to "Very Light" and values ≥ 100
(including 100 itself) to "Dark". -/
theorem spec_C3_classification (L : ℚ) (h0 : 0 ≤ L) (h1 : L < 100) :
    (∃ c, c ∈ skin_tone_categories ∧ (c.lo ≤ L ∧ L < c.hi) ∧
      classify_skin_tone_category L = c.name ∧
      ∀ c', c' ∈ skin_tone_categories → c'.lo ≤ L → L < c'.hi → c' = c) ∧
    classify_skin_tone_category 25 = "Light" ∧
    (∀ M : ℚ, M < 0 → classify_skin_tone_category M = "Very Light") ∧
    (∀ M : ℚ, 100 ≤ M → classify_skin_tone_category M = "Dark") := by
  refine ⟨?_, ?_, ?_, ?_⟩
  · rcases lt_or_le L 25 with hA | hA
    · refine ⟨⟨0, 25, "Very Light"⟩, by simp [skin_tone_categories], ⟨h0, hA⟩, ?_, ?_⟩
      · simp only [classify_skin_tone_category, skin_tone_categories]
        rw [List.find?_cons_of_pos _ (by simp only [decide_eq_true_eq]; exact ⟨h0, hA⟩)]
      · intro c' hmem hlo hhi
        simp only [skin_tone_categories, List.mem_cons, List.not_mem_nil, or_false] at hmem
        rcases hmem with rfl | rfl | rfl | rfl | rfl | rfl <;>
          first
          | rfl
          | (exfalso; dsimp only at hlo hhi; linarith)
    · rcases lt_or_le L 40 with hB | hB
      · refine ⟨⟨25, 40, "Light"⟩, by simp [skin_tone_categories], ⟨hA, hB⟩, ?_, ?_⟩
        · simp only [classify_skin_tone_category, skin_tone_categories]
          rw [List.find?_cons_of_neg _ (by simp only [decide_eq_true_eq]; rintro ⟨-, hx⟩; linarith),
              List.find?_cons_of_pos _ (by simp only [decide_eq_true_eq]; exact ⟨hA, hB⟩)]
        · intro c' hmem hlo hhi
          simp only [skin_tone_categories, List.mem_cons, List.not_mem_nil, or_false] at hmem
          rcases hmem with rfl | rfl | rfl | rfl | rfl | rfl <;>
            first
            | rfl
            | (exfalso; dsimp only at hlo hhi; linarith)
      · rcases lt_or_le L 55 with hC | hC
        · refine ⟨⟨40, 55, "Light Medium"⟩, by simp [skin_tone_categories], ⟨hB, hC⟩, ?_, ?_⟩
          · simp only [classify_skin_tone_category, skin_tone_categories]
            rw [List.find?_cons_of_neg _ (by simp only [decide_eq_true_eq]; rintro ⟨-, hx⟩; linarith),
                List.find?_cons_of_neg _ (by simp only [decide_eq_true_eq]; rintro ⟨-, hx⟩; linarith),
                List.find?_cons_of_pos _ (by simp only [decide_eq_true_eq]; exact ⟨hB, hC⟩)]
          · intro c' hmem hlo hhi
            simp only [skin_tone_categories, List.mem_cons, List.not_mem_nil, or_false] at hmem
            rcases hmem with rfl | rfl | rfl | rfl | rfl | rfl <;>
              first
              | rfl
              | (exfalso; dsimp only at hlo hhi; linarith)
        · rcases lt_or_le L 70 with hD | hD
          · refine ⟨⟨55, 70, "Medium"⟩, by simp [skin_tone_categories], ⟨hC, hD⟩, ?_, ?_⟩
            · simp only [classify_skin_tone_category, skin_tone_categories]
              rw [List.find?_cons_of_neg _ (by simp only [decide_eq_true_eq]; rintro ⟨-, hx⟩; linarith),
                  List.find?_cons_of_neg _ (by simp only [decide_eq_true_eq]; rintro ⟨-, hx⟩; linarith),
                  List.find?_cons_of_neg _ (by simp only [decide_eq_true_eq]; rintro ⟨-, hx⟩; linarith),
                  List.find?_cons_of_pos _ (by simp only [decide_eq_true_eq]; exact ⟨hC, hD⟩)]
            · intro c' hmem hlo hhi
              simp only [skin_tone_categories, List.mem_cons, List.not_mem_nil, or_false] at hmem
              rcases hmem with rfl | rfl | rfl | rfl | rfl | rfl <;>
                first
                | rfl
                | (exfalso; dsimp only at hlo hhi; linarith)
          · rcases lt_or_le L 85 with hE | hE
            · refine ⟨⟨70, 85, "Medium Dark"⟩, by simp [skin_tone_categories], ⟨hD, hE⟩, ?_, ?_⟩
              · simp only [classify_skin_tone_category, skin_tone_categories]
                rw [List.find?_cons_of_neg _ (by simp only [decide_eq_true_eq]; rintro ⟨-, hx⟩; linarith),
                    List.find?_cons_of_neg _ (by simp only [decide_eq_true_eq]; rintro ⟨-, hx⟩; linarith),
                    List.find?_cons_of_neg _ (by simp only [decide_eq_true_eq]; rintro ⟨-, hx⟩; linarith),
                    List.find?_cons_of_neg _ (by simp only [decide_eq_true_eq]; rintro ⟨-, hx⟩; linarith),
                    List.find?_cons_of_pos _ (by simp only [decide_eq_true_eq]; exact ⟨hD, hE⟩)]
              · intro c' hmem hlo hhi
                simp only [skin_tone_categories, List.mem_cons, List.not_mem_nil, or_false] at hmem
                rcases hmem with rfl | rfl | rfl | rfl | rfl | rfl <;>
                  first
                  | rfl
                  | (exfalso; dsimp only at hlo hhi; linarith)
            · refine ⟨⟨85, 100, "Dark"⟩, by simp [skin_tone_categories], ⟨hE, h1⟩, ?_, ?_⟩
              · simp only [classify_skin_tone_category, skin_tone_categories]
                rw [List.find?_cons_of_neg _ (by simp only [decide_eq_true_eq]; rintro ⟨-, hx⟩; linarith),
                    List.find?_cons_of_neg _ (by simp only [decide_eq_true_eq]; rintro ⟨-, hx⟩; linarith),
                    List.find?_cons_of_neg _ (by simp only [decide_eq_true_eq]; rintro ⟨-, hx⟩; linarith),
                    List.find?_cons_of_neg _ (by simp only [decide_eq_true_eq]; rintro ⟨-, hx⟩; linarith),
                    List.find?_cons_of_neg _ (by simp only [decide_eq_true_eq]; rintro ⟨-, hx⟩; linarith),
                    List.find?_cons_of_pos _ (by simp only [decide_eq_true_eq]; exact ⟨hE, h1⟩)]
              · intro c' hmem hlo hhi
                simp only [skin_tone_categories, List.mem_cons, List.not_mem_nil, or_false] at hmem
                rcases hmem with rfl | rfl | rfl | rfl | rfl | rfl <;>
                  first
                  | rfl
                  | (exfalso; dsimp only at hlo hhi; linarith)
  · simp only [classify_skin_tone_category, skin_tone_categories]
    rw [List.find?_cons_of_neg _ (by norm_num),
        List.find?_cons_of_pos _ (by norm_num)]
  · intro M hM
    simp only [classify_skin_tone_category, skin_tone_categories]
    rw [List.find?_cons_of_neg _ (by simp only [decide_eq_true_eq]; rintro ⟨hx, -⟩; linarith),
        List.find?_cons_of_neg _ (by simp only [decide_eq_true_eq]; rintro ⟨hx, -⟩; linarith),
        List.find?_cons_of_neg _ (by simp only [decide_eq_true_eq]; rintro ⟨hx, -⟩; linarith),
        List.find?_cons_of_neg _ (by simp only [decide_eq_true_eq]; rintro ⟨hx, -⟩; linarith),
        List.find?_cons_of_neg _ (by simp only [decide_eq_true_eq]; rintro ⟨hx, -⟩; linarith),
        List.find?_cons_of_neg _ (by simp only [decide_eq_true_eq]; rintro ⟨hx, -⟩; linarith)]
    rw [List.find?_nil, if_pos (by linarith : M < 25)]
  · intro M hM
    simp only [classify_skin_tone_category, skin_tone_categories]
    rw [List.find?_cons_of_neg _ (by simp only [decide_eq_true_eq]; rintro ⟨-, hx⟩; linarith),
        List.find?_cons_of_neg _ (by simp only [decide_eq_true_eq]; rintro ⟨-, hx⟩; linarith),
        List.find?_cons_of_neg _ (by simp only [decide_eq_true_eq]; rintro ⟨-, hx⟩; linarith),
        List.find?_cons_of_neg _ (by simp only [decide_eq_true_eq]; rintro ⟨-, hx⟩; linarith),
        List.find?_cons_of_neg _ (by simp only [decide_eq_true_eq]; rintro ⟨-, hx⟩; linarith),
        List.find?_cons_of_neg _ (by simp only [decide_eq_true_eq]; rintro ⟨-, hx⟩; linarith)]
    rw [List.find?_nil, if_neg (by linarith : ¬M < 25), if_pos (by linarith : (85 : ℚ) ≤ M)]

/-- Witness for C3 at L = 30 (the "Light" bucket). -/
theorem spec_C3_classification_witness :
    (0 : ℚ) ≤ 30 ∧ (30 : ℚ) < 100 ∧
    (∃ c, c ∈ skin_tone_categories ∧ (c.lo ≤ (30 : ℚ) ∧ (30 : ℚ) < c.hi) ∧
      classify_skin_tone_category 30 = c.name ∧
      ∀ c', c' ∈ skin_tone_categories → c'.lo ≤ (30 : ℚ) → (30 : ℚ) < c'.hi → c' = c) :=
  ⟨by norm_num, by norm_num,
   (spec_C3_classification 30 (by norm_num) (by norm_num)).1⟩

/-- C4: the undertone is "Warm" exactly when (normalised red − normalised
blue) exceeds 0.05, "Cool" exactly when it is below −0.05, and "Neutral"
exactly on the closed dead zone in between; a difference of 0.03 (mean red
channel 7.65) is Neutral, 0.06 is Warm, −0.06 is Cool. -/
theorem spec_C4_undertone (avg_color : Q3) (skin_pixels : List RGB8) :
    (determine_undertone avg_color skin_pixels = "Warm" ↔
      avg_color.r / 255 - avg_color.b / 255 > 5 / 100) ∧
    (determine_undertone avg_color skin_pixels = "Cool" ↔
      avg_color.r / 255 - avg_color.b / 255 < -(5 / 100)) ∧
    (determine_undertone avg_color skin_pixels = "Neutral" ↔
      (-(5 / 100) ≤ avg_color.r / 255 - avg_color.b / 255 ∧
        avg_color.r / 255 - avg_color.b / 255 ≤ 5 / 100)) ∧
    determine_undertone ⟨153 / 20, 0, 0⟩ [] = "Neutral" ∧
    determine_undertone ⟨153 / 10, 0, 0⟩ [] = "Warm" ∧
    determine_undertone ⟨0, 0, 153 / 10⟩ [] = "Cool" := by
  refine ⟨?_, ?_, ?_, ?_, ?_, ?_⟩
  · simp only [determine_undertone]
    split_ifs with hw hc
    · simp [hw]
    · simp only [String.reduceEq, false_iff]; linarith
    · simp only [String.reduceEq, false_iff]; linarith
  · simp only [determine_undertone]
    split_ifs with hw hc
    · simp only [String.reduceEq, false_iff]; linarith
    · simp [hc]
    · simp only [String.reduceEq, false_iff]; linarith
  · simp only [determine_undertone]
    split_ifs with hw hc
    · simp only [String.reduceEq, false_iff]
      rintro ⟨-, hx⟩; linarith
    · simp only [String.reduceEq, false_iff]
      rintro ⟨hx, -⟩; linarith
    · simp only [true_iff]
      constructor <;> linarith
  · simp only [determine_undertone]
    norm_num
  · simp only [determine_undertone]
    norm_num
  · simp only [determine_undertone]
    norm_num

/-- C5: the confidence depends only on the skin-pixel fraction, through the
bucket map <5% ↦ 0.3, [5%, 15%) ↦ 0.6, [15%, 40%) ↦ 0.9, ≥40% ↦ 0.8; it
always lies in [0, 1]; a fraction of exactly 5% (the 1×20 demo) maps to 0.6. -/
theorem spec_C5_confidence (skin_mask : Mask) (image : Image)
    (hpos : 0 < totalPixels image) :
    (skinFraction skin_mask image < 5 / 100 →
      calculate_confidence skin_mask image = 3 / 10) ∧
    (5 / 100 ≤ skinFraction skin_mask image → skinFraction skin_mask image < 15 / 100 →
      calculate_confidence skin_mask image = 3 / 5) ∧
    (15 / 100 ≤ skinFraction skin_mask image → skinFraction skin_mask image < 4 / 10 →
      calculate_confidence skin_mask image = 9 / 10) ∧
    (4 / 10 ≤ skinFraction skin_mask image →
      calculate_confidence skin_mask image = 4 / 5) ∧
    (0 ≤ calculate_confidence skin_mask image ∧ calculate_confidence skin_mask image ≤ 1) ∧
    (∀ m2 i2, 0 < totalPixels i2 → skinFraction m2 i2 = skinFraction skin_mask image →
      calculate_confidence m2 i2 = calculate_confidence skin_mask image) ∧
    calculate_confidence demoMask20 demoImg20 = 3 / 5 := by
  have hne : ¬totalPixels image = 0 := Nat.pos_iff_ne_zero.mp hpos
  refine ⟨?_, ?_, ?_, ?_, ?_, ?_, ?_⟩
  · intro hf
    rw [calculate_confidence, if_neg hne]
    rw [if_pos hf]
    norm_num
  · intro hf1 hf2
    rw [calculate_confidence, if_neg hne]
    rw [if_neg (by linarith), if_pos hf2]
    norm_num
  · intro hf1 hf2
    rw [calculate_confidence, if_neg hne]
    rw [if_neg (by linarith), if_neg (by linarith), if_pos hf2]
    norm_num
  · intro hf
    rw [calculate_confidence, if_neg hne]
    rw [if_neg (by linarith), if_neg (by linarith), if_neg (by linarith)]
    norm_num
  · rw [calculate_confidence, if_neg hne]
    split_ifs <;> constructor <;> norm_num
  · intro m2 i2 hp2 hfeq
    rw [calculate_confidence, if_neg (Nat.pos_iff_ne_zero.mp hp2),
        calculate_confidence, if_neg hne, hfeq]
  · have h20 : totalPixels demoImg20 = 20 := by decide
    have hc1 : countPos demoMask20 = 1 := by decide
    rw [calculate_confidence, if_neg (by rw [h20]; norm_num), skinFraction, h20, hc1]
    norm_num

/-- Witness for C5 at the 1×20 demo image and mask. -/
theorem spec_C5_confidence_witness :
    0 < totalPixels demoImg20 ∧ calculate_confidence demoMask20 demoImg20 = 3 / 5 :=
  ⟨by decide, (spec_C5_confidence demoMask20 demoImg20 (by decide)).2.2.2.2.2.2⟩

theorem argsortAsc_key_sorted (counts : List Nat) :
    ((argsortAsc counts).reverse.map (fun i => counts.getD i 0)).Sorted
      (fun a b => b ≤ a) := by
  have t1 : IsTotal Nat (fun i j => counts.getD i 0 ≤ counts.getD j 0) :=
    ⟨fun i j => Nat.le_total _ _⟩
  have t2 : IsTrans Nat (fun i j => counts.getD i 0 ≤ counts.getD j 0) :=
    ⟨fun a b c hab hbc => le_trans hab hbc⟩
  have hs : (argsortAsc counts).Pairwise (fun i j => counts.getD i 0 ≤ counts.getD j 0) := by
    simp only [argsortAsc]
    exact @List.sorted_insertionSort Nat _ (fun i j => inferInstance) t1 t2
      (List.range counts.length)
  have : ((argsortAsc counts).reverse.map (fun i => counts.getD i 0)).Pairwise
      (fun a b => b ≤ a) := by
    rw [List.pairwise_map, List.pairwise_reverse]
    exact hs
  exact this

/-- C6: the dominant-colour extraction orders its output by descending cluster
population (the counts read off along the reversed argsort are sorted
descending), every returned channel lies in the 8-bit range, and on the
9 : 1 two-colour pixel set with k = 2 it returns both colours with the
9-ratio colour first. -/
theorem spec_C6_dominant_sorted :
    (∀ labels : List Nat,
      ((argsortAsc (bincount labels)).reverse.map
        (fun i => (bincount labels).getD i 0)).Sorted (fun a b => b ≤ a)) ∧
    (∀ (pixels : List RGB8) (k : Nat) (res : List RGB8),
      get_dominant_colors pixels k = .ok res →
      ∀ c ∈ res, c.r ≤ 255 ∧ c.g ≤ 255 ∧ c.b ≤ 255) ∧
    get_dominant_colors twoTone91 2 = .ok [pixA, pixB] := by
  refine ⟨fun labels => argsortAsc_key_sorted _, ?_, ?_⟩
  · intro pixels k res h c hc
    simp only [get_dominant_colors] at h
    rcases hk : kmeansFit pixels k with e | ⟨centers, labels⟩
    · rw [hk] at h
      exact Except.noConfusion h
    · rw [hk] at h
      simp only [Except.ok.injEq] at h
      subst h
      rcases List.mem_map.mp hc with ⟨i, _, rfl⟩
      simp only [centerToU8]
      refine ⟨?_, ?_, ?_⟩ <;> exact Nat.le_of_lt_succ (Nat.mod_lt _ (by norm_num))
  · rfl

set_option maxRecDepth 100000 in
/-- Witness for C6: channel bounds instantiated at the 9 : 1 demo result. -/
theorem spec_C6_dominant_sorted_witness :
    get_dominant_colors twoTone91 2 = .ok [pixA, pixB] ∧
    ∀ c ∈ [pixA, pixB], c.r ≤ 255 ∧ c.g ≤ 255 ∧ c.b ≤ 255 :=
  ⟨spec_C6_dominant_sorted.2.2,
   spec_C6_dominant_sorted.2.1 twoTone91 2 [pixA, pixB] spec_C6_dominant_sorted.2.2⟩

set_option maxRecDepth 100000 in
/-- Counterexample to C7 as stated: five equal pixels form a set with fewer
distinct pixels (one) than the requested k = 5, yet extraction succeeds with
an `.ok` result instead of failing with a clustering error. -/
theorem spec_C7_counterexample :
    fiveSame.length = 5 ∧ fiveSame.dedup.length = 1 ∧
    get_dominant_colors fiveSame 5 = .ok [pixA] :=
  ⟨by decide, by decide, by rfl⟩

/-- C7 (amended): extraction fails with a (wrapped) clustering error exactly
when the pixel set has fewer pixels, duplicates included, than the requested
cluster count — in particular when it is empty; a set with at least k samples
but fewer distinct values succeeds. -/
theorem spec_C7_amended (pixels : List RGB8) (k : Nat) (hk : 1 ≤ k) :
    ((∃ e, get_dominant_colors pixels k = .error e) ↔ pixels.length < k) := by
  by_cases hlen : pixels.length < k
  · simp only [get_dominant_colors, kmeansFit, if_neg (by omega : ¬k = 0), if_pos hlen]
    exact ⟨fun _ => hlen,
      fun _ => ⟨clustering_failed_msg "n_samples should be >= n_clusters", rfl⟩⟩
  · simp only [get_dominant_colors, kmeansFit, if_neg (by omega : ¬k = 0), if_neg hlen]
    constructor
    · rintro ⟨e, he⟩
      exact Except.noConfusion he
    · intro h
      exact absurd h hlen

/-- Witness for the amended C7 at the empty pixel set with k = 5. -/
theorem spec_C7_amended_witness :
    1 ≤ 5 ∧ (∃ e, get_dominant_colors ([] : List RGB8) 5 = .error e) :=
  ⟨by norm_num, (spec_C7_amended [] 5 (by norm_num)).mpr (by simp)⟩

/-- C8: warmth adjustment acts exactly at mask-positive cells; for positive
magnitude it scales red by `1 + (m/100)·0.3` and blue by `1 − (m/100)·0.2`,
for negative magnitude red by `1 + (m/100)·0.2` and blue by `1 − (m/100)·0.3`,
clipping to [0, 255] and truncating to `uint8`; cells with zero mask weight
and the green channel everywhere are unchanged. -/
theorem spec_C8_warmth (image : Image) (adjustment : ℚ)
    (h1 : -50 ≤ adjustment) (h2 : adjustment ≤ 50) (i j : Nat) (mv : Nat) (p : RGB8)
    (hm : entry? (detect_skin_mask image) i j = some mv)
    (hp : entry? image i j = some p) :
    ∃ q, entry? (adjust_warmth image adjustment) i j = some q ∧
      q.g = p.g ∧
      (mv = 0 → q = p) ∧
      (0 < mv → 0 < adjustment →
        q.r = qTruncU8 (qClip ((p.r : ℚ) * (1 + adjustment / 100 * (3 / 10))) 0 255) ∧
        q.b = qTruncU8 (qClip ((p.b : ℚ) * (1 - adjustment / 100 * (2 / 10))) 0 255)) ∧
      (0 < mv → adjustment < 0 →
        q.r = qTruncU8 (qClip ((p.r : ℚ) * (1 + adjustment / 100 * (2 / 10))) 0 255) ∧
        q.b = qTruncU8 (qClip ((p.b : ℚ) * (1 - adjustment / 100 * (3 / 10))) 0 255)) := by
  by_cases hz : maskSum (detect_skin_mask image) = 0
  · have hmv : mv = 0 := maskSum_zero_entry hz hm
    refine ⟨p, ?_, rfl, fun _ => rfl, ?_, ?_⟩
    · simp only [adjust_warmth, if_pos hz]
      exact hp
    · intro h0 _
      rw [hmv] at h0
      exact absurd h0 (lt_irrefl 0)
    · intro h0 _
      rw [hmv] at h0
      exact absurd h0 (lt_irrefl 0)
  · refine ⟨⟨if 0 < mv then
        qTruncU8 (qClip ((p.r : ℚ) *
          (if 0 < adjustment / 100 then 1 + adjustment / 100 * (3 / 10)
           else 1 + adjustment / 100 * (2 / 10))) 0 255) else p.r,
      p.g,
      if 0 < mv then
        qTruncU8 (qClip ((p.b : ℚ) *
          (if 0 < adjustment / 100 then 1 - adjustment / 100 * (2 / 10)
           else 1 - adjustment / 100 * (3 / 10))) 0 255) else p.b⟩, ?_, rfl, ?_, ?_, ?_⟩
    · simp only [adjust_warmth, if_neg hz]
      rw [entry?_zipWith2D, hm, hp]
      rfl
    · intro h0
      subst h0
      simp
    · intro h0 hpos
      have hq : (0 : ℚ) < adjustment / 100 := div_pos hpos (by norm_num)
      constructor <;> (dsimp only; rw [if_pos h0, if_pos hq])
    · intro h0 hneg
      have hq : ¬(0 : ℚ) < adjustment / 100 :=
        not_lt.mpr (le_of_lt (div_neg_of_neg_of_pos hneg (by norm_num)))
      constructor <;> (dsimp only; rw [if_pos h0, if_neg hq])

set_option maxRecDepth 100000 in
/-- Witness for C8 at the all-skin 2×2 image, magnitude 10, cell (0, 0). -/
theorem spec_C8_warmth_witness :
    ∃ q, entry? (adjust_warmth skinImg2 10) 0 0 = some q ∧
      q.g = pixA.g ∧
      ((255 : Nat) = 0 → q = pixA) ∧
      (0 < (255 : Nat) → (0 : ℚ) < 10 →
        q.r = qTruncU8 (qClip ((pixA.r : ℚ) * (1 + 10 / 100 * (3 / 10))) 0 255) ∧
        q.b = qTruncU8 (qClip ((pixA.b : ℚ) * (1 - 10 / 100 * (2 / 10))) 0 255)) ∧
      (0 < (255 : Nat) → (10 : ℚ) < 0 →
        q.r = qTruncU8 (qClip ((pixA.r : ℚ) * (1 + 10 / 100 * (2 / 10))) 0 255) ∧
        q.b = qTruncU8 (qClip ((pixA.b : ℚ) * (1 - 10 / 100 * (3 / 10))) 0 255)) :=
  spec_C8_warmth skinImg2 10 (by norm_num) (by norm_num) 0 0 255 pixA (by decide) (by decide)

set_option maxRecDepth 100000 in
/-- C9 (code bug): with magnitude 0 the source multiplies the L channel by 1
but still clips it to [0, 100] at skin cells — yet OpenCV's 8-bit LAB keeps L
on a 0..255 scale. On the all-skin 2×2 image the pixel (200, 120, 100) has
8-bit L = 199; the pure LAB round trip returns (202, 120, 100) (within the
rounding tolerance), but the zero-magnitude adjustment clamps L to 100 and
returns (50, 22, 16), far outside any rounding tolerance. -/
theorem spec_C9_lightness_zero_bug :
    rgb2lab_8u pixA = ⟨199, 143, 142⟩ ∧
    lab2rgb_8u (rgb2lab_8u pixA) = ⟨202, 120, 100⟩ ∧
    adjust_lightness skinImg2 0 =
      [[⟨50, 22, 16⟩, ⟨50, 22, 16⟩], [⟨50, 22, 16⟩, ⟨50, 22, 16⟩]] := by
  refine ⟨by decide, by decide, ?_⟩
  have hmask : detect_skin_mask skinImg2 = [[255, 255], [255, 255]] := by decide
  have hlabs : mapGrid rgb2lab_8u skinImg2 =
      [[⟨199, 143, 142⟩, ⟨199, 143, 142⟩], [⟨199, 143, 142⟩, ⟨199, 143, 142⟩]] := by decide
  have hinv : lab2rgb_8u ⟨100, 143, 142⟩ = ⟨50, 22, 16⟩ := by decide
  have hcell : qTruncU8 (qClip (((199 : Nat) : ℚ) * (1 + 0 / 100)) 0 100) = 100 := by
    have hv : ((199 : Nat) : ℚ) * (1 + 0 / 100) = 199 := by push_cast; ring
    rw [qClip, hv, max_eq_left (by norm_num), min_eq_right (by norm_num),
        qTruncU8, show ((100 : ℚ)) = ((100 : ℤ) : ℚ) from by norm_num, Int.floor_intCast]
    rfl
  have hcell2 : qTruncU8 (qClip (199 : ℚ) 0 100) = 100 := by
    rw [qClip, max_eq_left (by norm_num), min_eq_right (by norm_num),
        qTruncU8, show ((100 : ℚ)) = ((100 : ℤ) : ℚ) from by norm_num, Int.floor_intCast]
    rfl
  rw [adjust_lightness, if_neg (by rw [hmask]; decide), hlabs, hmask]
  simp only [zipWith2D, List.zipWith, mapGrid, List.map]
  norm_num [hcell, hcell2, hinv]

/-- C10: the harmony computation is total — on a failed internal conversion it
returns exactly the fixed default record, which (unlike the success-path
record) has no saturation or value entries; the success path always carries
both, and either way a record (with a base hue) is produced, never a failure. -/
theorem spec_C10_harmony :
    (∀ e, get_color_harmony_info_core (.error e) = default_harmony) ∧
    default_harmony =
      [("base_hue", .num 0), ("complementary", .num 180),
       ("triadic", .arr [120, 240]), ("analogous", .arr [30, 330])] ∧
    (List.lookup "saturation" default_harmony = none ∧
     List.lookup "value" default_harmony = none) ∧
    (∀ res : Except String Q3,
      ∃ h, List.lookup "base_hue" (get_color_harmony_info_core res) = some h) ∧
    (∀ c : Q3,
      ∃ s v, List.lookup "saturation" (get_color_harmony_info c) = some (.num s) ∧
        List.lookup "value" (get_color_harmony_info c) = some (.num v)) := by
  refine ⟨fun e => rfl, rfl, ⟨rfl, rfl⟩, ?_, ?_⟩
  · intro res
    cases res with
    | error e => exact ⟨.num 0, rfl⟩
    | ok hsv => exact ⟨.num (hsv.r * 360), rfl⟩
  · intro c
    exact ⟨_, _, rfl, rfl⟩

/-- Witness for C4: the exact dead-zone instance 0.03 ↦ Neutral, via the
theorem. -/
theorem spec_C4_undertone_witness :
    determine_undertone ⟨153 / 20, 0, 0⟩ [] = "Neutral" :=
  (spec_C4_undertone ⟨153 / 20, 0, 0⟩ []).2.2.2.1

/-- Witness for C10: the fallback record at a concrete error, via the
theorem. -/
theorem spec_C10_harmony_witness :
    get_color_harmony_info_core (.error "boom") = default_harmony ∧
    List.lookup "saturation" default_harmony = none :=
  ⟨spec_C10_harmony.1 "boom", spec_C10_harmony.2.2.1.1⟩
